import Mathlib

/-!
# Verification of the longshot viewport-stitching core

Shallow embedding of `src/offscreen.js` (the later revision embedded in that
file, whose line numbers the claims cite): the dimension sanitizer, the
sticky-header detector, and the four stitching entry points
(`stitchCapturedViewports` in whole-page and custom-container modes,
`stitchElementCaptures`, `stitchJiraCenterCaptures`).

Modelling conventions:
* JavaScript numbers that stay finite are modelled as `ℚ`; `Math.floor` is
  `Int.floor`, `Math.round x` is `⌊x + 1/2⌋` (JS rounds half toward +∞).
  The one floating-point comparison in the detector, `diffCount > width * 0.05`,
  is modelled in exact arithmetic as `20 * diffCount > width`; IEEE doubles
  agree with the exact value here, because for `width = 20 * n` the double
  product `width * 0.05` rounds to exactly `n` (the relative error of the
  0.05 literal is below half an ulp after the multiplication), and for other
  widths the exact value is at least 1/20 away from any integer.
* A decoded image is a width, a height, and a total byte function `ℕ → ℕ`
  standing for its RGBA `Uint8ClampedArray` (index `(y*width + x)*4 + c`).
* Canvas pixels never painted are transparent black, i.e. byte 0.  Reading a
  `Uint8ClampedArray` out of bounds yields `undefined` in JS, which makes the
  per-pixel difference `NaN`, and `NaN > 30` is false — the same verdict the
  model reaches by reading 0 there, so modelling out-of-range bytes as 0 is
  behaviourally faithful for the detector.
* Host-side failures (canvas allocation or `getImageData` throwing) are an
  explicit `Bool` flag threaded to the detector, which the source's
  `try/catch` turns into a result of 0.
* Fallible entry points return `Except StitchErr StitchOut`; the PNG encoding
  step (`convertToBlob`) is not byte-modelled — a `StitchOut` records the
  dimensions of the surface handed to the encoder, the `drawImage` calls
  issued, the final destination cursor, and whether the trim branch ran.
-/

/-- A JavaScript number: NaN, the two infinities, or a finite value (`ℚ`). -/
inductive JSNum where
  | nan : JSNum
  | posInf : JSNum
  | negInf : JSNum
  | fin : ℚ → JSNum
deriving DecidableEq

/-- A JavaScript value as far as `sanitizeCanvasDimension` inspects it:
`undefined`, `null`, or a number. -/
inductive JSValue where
  | undef : JSValue
  | null : JSValue
  | num : JSNum → JSValue
deriving DecidableEq

/-- JavaScript `Math.floor` on a finite number, as the executable
`Rat.floor` (definitionally equal to `Int.floor` on `ℚ`, see
`ratFloor_eq_intFloor`). -/
def jsFloor (q : ℚ) : ℤ := Rat.floor q

/-- Numeric core of `sanitizeCanvasDimension` (offscreen.js lines 561-571):
floor, replace results below 1 by the default, cap at 32767. -/
def sanitizeQ (value : ℚ) (defaultValue : ℤ) : ℤ :=
  let intValue : ℤ := jsFloor value
  let intValue : ℤ := if intValue < 1 then defaultValue else intValue
  if intValue > 32767 then 32767 else intValue

/-- `sanitizeCanvasDimension(value, defaultValue)` (offscreen.js lines
551-572): `undefined`/`null` and non-finite numbers yield the default,
finite numbers go through floor/default/ceiling. -/
def sanitizeCanvasDimension (value : JSValue) (defaultValue : ℤ) : ℤ :=
  match value with
  | .undef => defaultValue
  | .null => defaultValue
  | .num .nan => defaultValue
  | .num .posInf => defaultValue
  | .num .negInf => defaultValue
  | .num (.fin q) => sanitizeQ q defaultValue

/-- JavaScript `Math.round`: round half toward positive infinity. -/
def jsRound (q : ℚ) : ℤ := jsFloor (q + 1/2)

/-- A decoded raster image: integer dimensions plus its RGBA byte array,
modelled as a total function (see the header comment on out-of-range reads). -/
structure Image where
  width : ℕ
  height : ℕ
  data : ℕ → ℕ

/-- Sum of the per-channel absolute differences of R, G and B at the pixel
whose R byte sits at `idx` (offscreen.js lines 621-623); alpha is ignored. -/
def pixelDiff (d1 d2 : ℕ → ℕ) (idx : ℕ) : ℕ :=
  ((d1 idx : ℤ) - d2 idx).natAbs +
    ((d1 (idx + 1) : ℤ) - d2 (idx + 1)).natAbs +
    ((d1 (idx + 2) : ℤ) - d2 (idx + 2)).natAbs

/-- Number of pixels of row `row` whose difference exceeds the threshold 30
(offscreen.js lines 618-627). -/
def rowDiffCount (d1 d2 : ℕ → ℕ) (width row : ℕ) : ℕ :=
  (List.range width).countP fun p =>
    30 < pixelDiff d1 d2 (row * (width * 4) + p * 4)

/-- Row verdict (offscreen.js line 630): the row fails when
`diffCount > width * 0.05`; in exact arithmetic, when
`20 * diffCount > width`. -/
def rowMatches (d1 d2 : ℕ → ℕ) (width row : ℕ) : Bool :=
  20 * rowDiffCount d1 d2 width row ≤ width

/-- The scanning loop of `detectStickyHeaderHeight` (offscreen.js lines
612-635) starting at `row` with `rem` rows left: length of the run of
matching rows before the first mismatch. -/
def stickyRunFrom (d1 d2 : ℕ → ℕ) (width : ℕ) : ℕ → ℕ → ℕ
  | _, 0 => 0
  | row, rem + 1 =>
    if rowMatches d1 d2 width row then
      1 + stickyRunFrom d1 d2 width (row + 1) rem
    else 0

/-- Leading run of matching rows within the first `rows` rows. -/
def stickyRun (d1 d2 : ℕ → ℕ) (width rows : ℕ) : ℕ :=
  stickyRunFrom d1 d2 width 0 rows

/-- Number of naturals `row` with `(row : ℚ) < q` — the iterations of a JS
loop `for (row = 0; row < q; row++)` with a possibly fractional bound. -/
def rowsBelow (q : ℚ) : ℕ := (Rat.ceil q).toNat

/-- Pixel-level core of `detectStickyHeaderHeight` (offscreen.js lines
609-644), acting on two already-extracted equally sized byte regions: scan
the leading run of matching rows, then accept it only when it is at least 20
and below `maxHeight - 20`. -/
def detectStickyCore (d1 d2 : ℕ → ℕ) (width : ℕ) (maxHeight : ℚ) : ℕ :=
  let s := stickyRun d1 d2 width (rowsBelow maxHeight)
  if 20 ≤ s ∧ (s : ℚ) < maxHeight - 20 then s else 0

/-- The byte array produced by drawing the source rectangle
`(offsetX, 0, cropW, ·)` of `img` onto a fresh canvas of width `cropW` and
reading it back (offscreen.js lines 593-606): pixels outside the image are
transparent black. -/
def cropData (img : Image) (offsetX : ℤ) (cropW : ℕ) : ℕ → ℕ :=
  fun idx =>
    let rowBytes := cropW * 4
    let row := idx / rowBytes
    let rem := idx % rowBytes
    let p := rem / 4
    let c := rem % 4
    let sx : ℤ := (p : ℤ) + offsetX
    if 0 ≤ sx ∧ sx < (img.width : ℤ) ∧ row < img.height then
      img.data (row * (img.width * 4) + sx.toNat * 4 + c)
    else 0

/-- `detectStickyHeaderHeight(img1, img2, offsetX, maxHeight, width)`
(offscreen.js lines 590-649).  `hostCropFails` abstracts any throw of the
canvas host (allocation, `getImageData`); the source's `try/catch` and the
null-context guard turn such a failure into 0.  A non-positive width or a
negative height also make the host throw (`OffscreenCanvas` rejects negative
sizes, `getImageData` rejects zero sizes), landing in the same catch. -/
def detectStickyHeaderHeight (hostCropFails : Bool) (img1 img2 : Image)
    (offsetX : ℤ) (maxHeight : ℚ) (width : ℤ) : ℕ :=
  if hostCropFails ∨ width ≤ 0 ∨ maxHeight < 0 then 0
  else
    detectStickyCore (cropData img1 offsetX width.toNat)
      (cropData img2 offsetX width.toNat) width.toNat maxHeight

/-- Fatal stitch failures: empty input (the guard at the top of every entry
point) and image decode failure (`loadImageFromDataUrl` rejecting). -/
inductive StitchErr where
  | emptyInput : StitchErr
  | decodeFailed : StitchErr
deriving DecidableEq

/-- One `drawImage(img, srcX, srcY, srcW, srcH, 0, destY, srcW, srcH)` call
issued against the output canvas, with the arguments the source passes. -/
structure DrawOp where
  srcX : ℚ
  srcY : ℚ
  srcW : ℚ
  srcH : ℚ
  destY : ℚ
deriving DecidableEq

/-- The observable outcome of a successful stitch call: the dimensions of the
surface handed to the PNG encoder, the draw calls issued in order, the final
destination cursor, and whether the trim-reallocation branch ran. -/
structure StitchOut where
  width : ℤ
  height : ℤ
  ops : List DrawOp
  finalCursor : ℚ
  trimmed : Bool
deriving DecidableEq

/-- One element of a `captures` array.  `decoded` is the result of
`loadImageFromDataUrl(dataUrl)` (`none` = the load rejects).  The optional
fields model `boundingRect` and its `x`/`y`/`height` properties; an absent
`boundingRect` is all three `none` (the code then falls back to
`elementBounds`, whose `x`/`y` are absent and whose `height` is the element
height, giving the same fallbacks).  `viewportHeight`, `viewportWidth`,
`scrollY` and `isLastCapture` are carried by the source but never read by any
stitching geometry, so they are omitted. -/
structure Capture where
  decoded : Option Image
  rectX : Option ℚ
  rectY : Option ℚ
  rectHeight : Option ℚ

/-- Sequential image loading (offscreen.js lines 869-880): the first decode
failure rejects the whole call. -/
def decodeAll : List Capture → Except StitchErr (List Image)
  | [] => .ok []
  | c :: cs =>
    match c.decoded with
    | none => .error .decodeFailed
    | some img => (decodeAll cs).map (img :: ·)

/-- Sticky-header probe of the whole-page path (offscreen.js lines 889-905):
compare the top `min(200, height/2)` rows of the first two captures at
horizontal offset 0 and the first capture's width; fewer than two captures
means no detection. -/
def wholePageSticky (hostCropFails : Bool) : List Image → ℕ
  | i0 :: i1 :: _ =>
    detectStickyHeaderHeight hostCropFails i0 i1 0
      (min 200 ((i0.height : ℚ) / 2)) (i0.width : ℤ)
  | _ => 0

/-- Draw loop of the whole-page path (offscreen.js lines 933-954): every
capture issues exactly one draw — there is no clamping and no skip — and the
cursor advances by the (possibly negative) draw height. -/
def wholePageOps (ov : ℚ) (sticky : ℚ) (canvasWidth : ℚ) :
    Bool → ℚ → List Image → List DrawOp
  | _, _, [] => []
  | first, cursor, im :: rest =>
    let sourceY := if first then 0 else ov + sticky
    let drawHeight := if first then (im.height : ℚ) else (im.height : ℚ) - ov - sticky
    { srcX := 0, srcY := sourceY, srcW := canvasWidth, srcH := drawHeight,
      destY := cursor } :: wholePageOps ov sticky canvasWidth false (cursor + drawHeight) rest

/-- Final value of `currentY` in the whole-page draw loop. -/
def wholePageCursor (ov : ℚ) (sticky : ℚ) : ℚ → Bool → List Image → ℚ
  | cursor, _, [] => cursor
  | cursor, first, im :: rest =>
    let drawHeight := if first then (im.height : ℚ) else (im.height : ℚ) - ov - sticky
    wholePageCursor ov sticky (cursor + drawHeight) false rest

/-- Whole-page stitching after the images are loaded (offscreen.js lines
907-962), taking the first image and the rest (the entry point has already
rejected an empty sequence) and the detected sticky-header height: size the
canvas at the sanitized accumulated height, draw every capture hard-cut at
`overlap + sticky`, and encode without trimming. -/
def stitchLoadedViewportsCore (sticky : ℕ) (i0 : Image) (rest : List Image)
    (ov : ℚ) : StitchOut :=
  let canvasWidth : ℚ := (i0.width : ℚ)
  let totalHeight : ℚ :=
    rest.foldl (fun acc im => acc + ((im.height : ℚ) - ov - sticky)) (i0.height : ℚ)
  { width := sanitizeQ canvasWidth 800,
    height := sanitizeQ totalHeight 600,
    ops := wholePageOps ov sticky canvasWidth true 0 (i0 :: rest),
    finalCursor := wholePageCursor ov sticky 0 true (i0 :: rest),
    trimmed := false }

/-- Whole-page body with the sticky value the source computes at lines
889-905. -/
def stitchLoadedViewports (hostCropFails : Bool) (i0 : Image) (rest : List Image)
    (ov : ℚ) : StitchOut :=
  stitchLoadedViewportsCore (wholePageSticky hostCropFails (i0 :: rest)) i0 rest ov

/-- A fixed crop rectangle in logical pixels (`containerBounds` of the
custom-container path; also the geometric part of the Jira `cropBounds`). -/
structure RectBounds where
  left : ℚ
  top : ℚ
  width : ℚ
  height : ℚ
deriving DecidableEq

/-- Draw loop shared in shape by the custom-container path (offscreen.js
lines 1030-1062) and the Jira path (lines 1154-1187): a constant source
rectangle, with distinct Y/height for the first capture, clamped on the right
and bottom to the image, skipping (without advancing the cursor) any capture
whose clamped width or height is ≤ 0.  Returns the ops issued and the final
cursor. -/
def croppedOps (srcX maxW srcYFirst srcHFirst srcYRest srcHRest : ℤ) :
    Bool → ℤ → List Image → List DrawOp × ℤ
  | _, cursor, [] => ([], cursor)
  | first, cursor, im :: rest =>
    let srcY := if first then srcYFirst else srcYRest
    let srcH0 := if first then srcHFirst else srcHRest
    let cw := min maxW ((im.width : ℤ) - srcX)
    let ch := min srcH0 ((im.height : ℤ) - srcY)
    if cw ≤ 0 ∨ ch ≤ 0 then
      croppedOps srcX maxW srcYFirst srcHFirst srcYRest srcHRest false cursor rest
    else
      let p := croppedOps srcX maxW srcYFirst srcHFirst srcYRest srcHRest false (cursor + ch) rest
      ({ srcX := srcX, srcY := srcY, srcW := cw, srcH := ch, destY := cursor } :: p.1, p.2)

/-- `stitchCustomContainerCaptures(images, overlapHeight, containerBounds,
devicePixelRatio)` (offscreen.js lines 974-1084) with the detected sticky
height as a parameter: scale the container bounds and the overlap by the
device pixel ratio, accumulate the output height, draw each capture cropped
to the container, and trim only when the cursor is below the allocated
height AND strictly positive. -/
def stitchCustomContainerCore (sticky : ℕ) (imgs : List Image)
    (ov : ℚ) (b : RectBounds) (dpr : ℚ) : StitchOut :=
  let sl := jsRound (b.left * dpr)
  let st := jsRound (b.top * dpr)
  let sw := jsRound (b.width * dpr)
  let sh := jsRound (b.height * dpr)
  let so := jsRound (ov * dpr)
  let total : ℤ := imgs.tail.foldl (fun acc _ => acc + (sh - so - sticky)) sh
  let outputW := sanitizeQ (sw : ℚ) 800
  let outputH := sanitizeQ (total : ℚ) 600
  let p := croppedOps sl sw st sh (st + so + sticky) (sh - so - sticky) true 0 imgs
  if (p.2 : ℤ) < outputH ∧ 0 < p.2 then
    { width := outputW, height := p.2, ops := p.1, finalCursor := (p.2 : ℚ), trimmed := true }
  else
    { width := outputW, height := outputH, ops := p.1, finalCursor := (p.2 : ℚ), trimmed := false }

/-- Sticky-header probe of the custom-container path (offscreen.js lines
991-1004): compare the container region of the first two captures. -/
def customContainerSticky (hostCropFails : Bool) (b : RectBounds) (dpr : ℚ) :
    List Image → ℕ
  | i0 :: i1 :: _ =>
    detectStickyHeaderHeight hostCropFails i0 i1 (jsRound (b.left * dpr))
      (min (200 * dpr) (((jsRound (b.height * dpr)) : ℚ) / 2)) (jsRound (b.width * dpr))
  | _ => 0

/-- Custom-container body with the sticky value the source computes at lines
991-1004. -/
def stitchCustomContainerCaptures (hostCropFails : Bool) (imgs : List Image)
    (ov : ℚ) (b : RectBounds) (dpr : ℚ) : StitchOut :=
  stitchCustomContainerCore (customContainerSticky hostCropFails b dpr imgs) imgs ov b dpr

/-- The `cropBounds` argument of the Jira path: a rectangle in logical pixels
plus the device pixel ratio.  (The source also receives a `totalHeight` field
it never reads.) -/
structure JiraBounds where
  left : ℚ
  top : ℚ
  width : ℚ
  height : ℚ
  dpr : ℚ
deriving DecidableEq

/-- Loaded-image body of `stitchJiraCenterCaptures` (offscreen.js lines
1103-1207): scale the crop bounds and overlap, accumulate the output height
(first capture full crop height, later ones minus the scaled overlap; no
sticky-header adjustment), draw each capture cropped, trim only when the
cursor is below the allocated height and strictly positive. -/
def stitchJiraLoaded (b : JiraBounds) (imgs : List Image) (ov : ℚ) : StitchOut :=
  let sl := jsRound (b.left * b.dpr)
  let st := jsRound (b.top * b.dpr)
  let sw := jsRound (b.width * b.dpr)
  let sh := jsRound (b.height * b.dpr)
  let so := jsRound (ov * b.dpr)
  let total : ℤ := imgs.tail.foldl (fun acc _ => acc + (sh - so)) sh
  let outputW := sanitizeQ (sw : ℚ) 800
  let outputH := sanitizeQ (total : ℚ) 600
  let p := croppedOps sl sw st sh (st + so) (sh - so) true 0 imgs
  if (p.2 : ℤ) < outputH ∧ 0 < p.2 then
    { width := outputW, height := p.2, ops := p.1, finalCursor := (p.2 : ℚ), trimmed := true }
  else
    { width := outputW, height := outputH, ops := p.1, finalCursor := (p.2 : ℚ), trimmed := false }

/-- `stitchJiraCenterCaptures(captures, cropBounds, overlapHeight)`
(offscreen.js lines 1094-1213): reject empty input, load the images, then
run the Jira body. -/
def stitchJiraCenterCaptures (caps : List Capture) (b : JiraBounds) (ov : ℚ) :
    Except StitchErr StitchOut :=
  if caps.isEmpty then .error .emptyInput
  else (decodeAll caps).map fun imgs => stitchJiraLoaded b imgs ov

/-- `stitchCapturedViewports(captures, overlapHeight, useCustomContainer,
containerBounds, devicePixelRatio)` (offscreen.js lines 858-968): reject
empty input, load the images, then dispatch to the custom-container body when
`useCustomContainer && containerBounds` holds, else to the whole-page body. -/
def stitchCapturedViewports (hostCropFails : Bool) (caps : List Capture) (ov : ℚ)
    (useCustomContainer : Bool) (containerBounds : Option RectBounds) (dpr : ℚ) :
    Except StitchErr StitchOut :=
  if caps.isEmpty then .error .emptyInput
  else
    match decodeAll caps with
    | .error e => .error e
    | .ok imgs =>
      match useCustomContainer, containerBounds with
      | true, some b => .ok (stitchCustomContainerCaptures hostCropFails imgs ov b dpr)
      | _, _ =>
        match imgs with
        | [] => .error .emptyInput
        | i0 :: rest => .ok (stitchLoadedViewports hostCropFails i0 rest ov)

/-- `stitchFullPage` of the spec: `stitchCapturedViewports` with the default
arguments (no custom container, device pixel ratio 1). -/
def stitchFullPage (hostCropFails : Bool) (caps : List Capture) (ov : ℚ) :
    Except StitchErr StitchOut :=
  stitchCapturedViewports hostCropFails caps ov false none 1

/-- The `elementBounds` argument of `stitchElementCaptures`: element size and
offsets in logical pixels, device pixel ratio, and the scroll-mode flag. -/
structure ElementBounds where
  width : ℚ
  height : ℚ
  offsetX : ℚ
  offsetY : ℚ
  dpr : ℚ
  hasInternalScroll : Bool

/-- Per-capture metadata after loading (offscreen.js lines 688-699): the
decoded image plus the device-pixel offsets and capture height.  `rect.x` and
`rect.y` fall back to the element bounds when `undefined`; `rect.height`
falls back when falsy (`||`), i.e. also when it is 0. -/
structure EImg where
  img : Image
  offsetX : ℤ
  offsetY : ℤ
  captureHeight : ℤ

/-- Build the per-capture metadata for one capture (offscreen.js lines
683-699). -/
def elemMeta (b : ElementBounds) (c : Capture) (img : Image) : EImg :=
  { img := img,
    offsetX := jsRound ((c.rectX.getD b.offsetX) * b.dpr),
    offsetY := jsRound ((c.rectY.getD b.offsetY) * b.dpr),
    captureHeight := jsRound ((match c.rectHeight with
      | some q => if q = 0 then b.height else q
      | none => b.height) * b.dpr) }

/-- Load all element captures in order, building their metadata; the first
decode failure rejects the call (offscreen.js lines 679-700). -/
def decodeElems (b : ElementBounds) : List Capture → Except StitchErr (List EImg)
  | [] => .ok []
  | c :: cs =>
    match c.decoded with
    | none => .error .decodeFailed
    | some img => (decodeElems b cs).map (elemMeta b c img :: ·)

/-- Everything one iteration of the element draw loop (offscreen.js lines
765-821) computes for one capture, together with the accumulator state before
and after it.  In internal-scroll mode the page-scroll row-tracking fields
are not computed by the source and are recorded as 0 here, and the watermark
is left unchanged. -/
structure ElemStep where
  imgW : ℤ
  imgH : ℤ
  offsetX : ℤ
  offsetY : ℤ
  elementRowStart : ℤ
  elementRowEnd : ℤ
  overlapRows : ℤ
  watermarkBefore : ℤ
  watermarkAfter : ℤ
  srcX : ℤ
  srcY : ℤ
  srcWidth : ℤ
  srcHeight : ℤ
  skipped : Bool
  destYBefore : ℤ
  destYAfter : ℤ
deriving DecidableEq

/-- One iteration of the element draw loop (offscreen.js lines 765-821).
`wm` is `elementRowDrawnUpTo` and `destY` is `currentDestY` on entry.  In
page-scroll mode the watermark is advanced before the clamp-and-skip check,
exactly as in the source (line 798 precedes lines 804-810). -/
def elemStep (internal : Bool) (scaledW scaledTotal scaledOv : ℤ) (sticky : ℕ)
    (first : Bool) (wm destY : ℤ) (e : EImg) : ElemStep :=
  let imgW : ℤ := (e.img.width : ℤ)
  let imgH : ℤ := (e.img.height : ℤ)
  let srcX := max 0 e.offsetX
  if internal then
    let srcY := if first then e.offsetY else e.offsetY + scaledOv
    let srcH0 := if first then e.captureHeight else e.captureHeight - scaledOv
    let srcH := min srcH0 (imgH - srcY)
    let srcW := min scaledW (imgW - srcX)
    let skipped := decide (srcH ≤ 0 ∨ srcW ≤ 0)
    { imgW := imgW, imgH := imgH, offsetX := e.offsetX, offsetY := e.offsetY,
      elementRowStart := 0, elementRowEnd := 0, overlapRows := 0,
      watermarkBefore := wm, watermarkAfter := wm,
      srcX := srcX, srcY := srcY, srcWidth := srcW, srcHeight := srcH,
      skipped := skipped,
      destYBefore := destY, destYAfter := if skipped then destY else destY + srcH }
  else
    let rs := max 0 (-e.offsetY)
    let re := min (rs + (imgH - max 0 e.offsetY)) scaledTotal
    let ovR := max 0 (wm - rs)
    let srcY := max 0 e.offsetY + ovR + (if ¬first ∧ 0 < sticky then (sticky : ℤ) else 0)
    let srcH0 := imgH - srcY
    let wm' := max wm re
    let srcH := min srcH0 (imgH - srcY)
    let srcW := min scaledW (imgW - srcX)
    let skipped := decide (srcH ≤ 0 ∨ srcW ≤ 0)
    { imgW := imgW, imgH := imgH, offsetX := e.offsetX, offsetY := e.offsetY,
      elementRowStart := rs, elementRowEnd := re, overlapRows := ovR,
      watermarkBefore := wm, watermarkAfter := wm',
      srcX := srcX, srcY := srcY, srcWidth := srcW, srcHeight := srcH,
      skipped := skipped,
      destYBefore := destY, destYAfter := if skipped then destY else destY + srcH }

/-- The element draw loop over a capture list, threading the watermark and
destination cursor and recording every iteration. -/
def elemSteps (internal : Bool) (scaledW scaledTotal scaledOv : ℤ) (sticky : ℕ) :
    Bool → ℤ → ℤ → List EImg → List ElemStep
  | _, _, _, [] => []
  | first, wm, dY, e :: rest =>
    let r := elemStep internal scaledW scaledTotal scaledOv sticky first wm dY e
    r :: elemSteps internal scaledW scaledTotal scaledOv sticky false r.watermarkAfter r.destYAfter rest

/-- Sticky-header probe of the element path (offscreen.js lines 728-744):
runs only in internal-scroll mode with at least two captures, on the element
region of the first two captures. -/
def elementSticky (hostCropFails : Bool) (b : ElementBounds) : List EImg → ℕ
  | e0 :: e1 :: _ =>
    if b.hasInternalScroll then
      detectStickyHeaderHeight hostCropFails e0.img e1.img e0.offsetX
        (min (200 * b.dpr) ((e0.img.height : ℚ) / 2)) (jsRound (b.width * b.dpr))
    else 0
  | _ => 0

/-- Loaded-image body of `stitchElementCaptures` (offscreen.js lines 668-842)
with the detected sticky height as a parameter: scale the element bounds and
the overlap, run the draw loop, and trim (with no positivity guard on the
drawn height) whenever the final cursor is below the allocated height. -/
def stitchElementCore (sticky : ℕ) (b : ElementBounds)
    (es : List EImg) (ov : ℚ) : StitchOut :=
  let scaledW := jsRound (b.width * b.dpr)
  let scaledTotal := jsRound (b.height * b.dpr)
  let scaledOv := jsRound (ov * b.dpr)
  let outputW := sanitizeQ (scaledW : ℚ) 800
  let outputH := sanitizeQ (scaledTotal : ℚ) 600
  let steps := elemSteps b.hasInternalScroll scaledW scaledTotal scaledOv sticky true 0 0 es
  let fin : ℤ := steps.foldl (fun _ r => r.destYAfter) 0
  let ops := (steps.filter (fun r => !r.skipped)).map fun r =>
    { srcX := (r.srcX : ℚ), srcY := (r.srcY : ℚ), srcW := (r.srcWidth : ℚ),
      srcH := (r.srcHeight : ℚ), destY := (r.destYBefore : ℚ) }
  if fin < outputH then
    { width := outputW, height := fin, ops := ops, finalCursor := (fin : ℚ), trimmed := true }
  else
    { width := outputW, height := outputH, ops := ops, finalCursor := (fin : ℚ), trimmed := false }

/-- Element body with the sticky value the source computes at lines
728-744. -/
def stitchElementLoaded (hostCropFails : Bool) (b : ElementBounds)
    (es : List EImg) (ov : ℚ) : StitchOut :=
  stitchElementCore (elementSticky hostCropFails b es) b es ov

/-- `stitchElementCaptures(captures, elementBounds, overlapHeight)`
(offscreen.js lines 659-848): reject empty input, load the images and their
metadata, then run the element body. -/
def stitchElementCaptures (hostCropFails : Bool) (caps : List Capture)
    (b : ElementBounds) (ov : ℚ) : Except StitchErr StitchOut :=
  if caps.isEmpty then .error .emptyInput
  else (decodeElems b caps).map fun es => stitchElementLoaded hostCropFails b es ov

deriving instance DecidableEq for Except

/-! ## Concrete fixtures used by witnesses and counterexamples -/

/-- A 2×100 all-black capture image. -/
def imgA : Image := ⟨2, 100, fun _ => 0⟩

/-- A 2×50 all-white capture image. -/
def imgB : Image := ⟨2, 50, fun _ => 255⟩

/-- A capture that decodes to `imgA`, with no bounding rect. -/
def capA : Capture := ⟨some imgA, none, none, none⟩

/-- A capture that decodes to `imgB`, with no bounding rect. -/
def capB : Capture := ⟨some imgB, none, none, none⟩

/-- A 1000×800 all-black capture image (device pixels). -/
def imgK0 : Image := ⟨1000, 800, fun _ => 0⟩

/-- A 1000×800 all-white capture image (device pixels). -/
def imgK1 : Image := ⟨1000, 800, fun _ => 255⟩

/-- A capture decoding to `imgK0`. -/
def capK0 : Capture := ⟨some imgK0, none, none, none⟩

/-- A capture decoding to `imgK1`. -/
def capK1 : Capture := ⟨some imgK1, none, none, none⟩

/-- All-zero byte region. -/
def dZero : ℕ → ℕ := fun _ => 0

/-- Byte region agreeing with `dZero` on its first 25 one-pixel rows
(indices below 100) and differing by 255 per channel afterwards. -/
def dSplit : ℕ → ℕ := fun idx => if idx < 100 then 0 else 255

/-- Byte region agreeing with `dZero` on its first 85 one-pixel rows
(indices below 340) and differing by 255 per channel afterwards. -/
def dSplit85 : ℕ → ℕ := fun idx => if idx < 340 then 0 else 255

/-! ## Claim-side definitions for the Similarity Comparator (C2) -/

/-- Row verdict as claim C2 words it: a row matches when FEWER than 5% of
its pixels differ (`diffCount < width * 0.05`, exactly
`20 * diffCount < width`).  The source uses non-strict comparison instead
(`rowMatches`). -/
def rowMatchesStrict (d1 d2 : ℕ → ℕ) (width row : ℕ) : Bool :=
  20 * rowDiffCount d1 d2 width row < width

/-- Length of the leading run of claim-side matching rows. -/
def claimedRun (d1 d2 : ℕ → ℕ) (width rows : ℕ) : ℕ :=
  ((List.range rows).takeWhile fun r => rowMatchesStrict d1 d2 width r).length

/-- The detector output as claim C2 states it: return the leading matching
run exactly when it is at least 20 device pixels and strictly less than the
FULL compared height, else 0.  (The source instead requires the run to be
below the compared height minus 20.) -/
def claimedDetect (d1 d2 : ℕ → ℕ) (width rows : ℕ) : ℕ :=
  let s := claimedRun d1 d2 width rows
  if 20 ≤ s ∧ s < rows then s else 0

/-- A 100×400 all-black capture image (page-scroll element scenario). -/
def img400 : Image := ⟨100, 400, fun _ => 0⟩

/-- Page-scroll element capture with `boundingRect.y = 0`. -/
def capP0 : Capture := ⟨some img400, none, some 0, none⟩

/-- Page-scroll element capture with `boundingRect.y = -120`. -/
def capP1 : Capture := ⟨some img400, none, some (-120), none⟩

/-- Page-scroll element capture with `boundingRect.y = -240`. -/
def capP2 : Capture := ⟨some img400, none, some (-240), none⟩

/-- Element bounds for the page-scroll scenario: 100×900 logical, dpr 1,
page-scroll mode. -/
def elPage : ElementBounds := ⟨100, 900, 0, 0, 1, false⟩

/-- A 100×80 all-black capture image. -/
def imgSmall : Image := ⟨100, 80, fun _ => 0⟩

/-- A capture decoding to `imgSmall`, with no bounding rect. -/
def capSmall : Capture := ⟨some imgSmall, none, none, none⟩

/-- A 100×20 all-black capture image (shorter than the crop rectangle). -/
def imgShort : Image := ⟨100, 20, fun _ => 0⟩

/-- Element bounds whose offsetX (500) lies right of the 100px-wide capture,
so every capture's clamped source width is negative: 100×50 logical, dpr 1,
internal scroll. -/
def elBSkip : ElementBounds := ⟨100, 50, 500, 0, 1, true⟩

/-- Container bounds whose left edge (500) lies right of the 100px-wide
capture. -/
def rbSkip : RectBounds := ⟨500, 0, 50, 40⟩

/-- Jira crop bounds whose left edge (500) lies right of the 100px-wide
capture. -/
def jbSkip : JiraBounds := ⟨500, 0, 50, 40, 1⟩

/-- Container bounds fully inside the capture images. -/
def rbTrim : RectBounds := ⟨0, 0, 50, 40⟩

/-- Loaded page-scroll element capture: offsetY 0 (device px). -/
def eP0 : EImg := ⟨img400, 0, 0, 900⟩

/-- Loaded page-scroll element capture: offsetY -120 (device px). -/
def eP1 : EImg := ⟨img400, 0, -120, 900⟩

/-- Loaded page-scroll element capture: offsetY -240 (device px). -/
def eP2 : EImg := ⟨img400, 0, -240, 900⟩

/-- Jira crop bounds fully inside the capture images. -/
def jbTrim : JiraBounds := ⟨0, 0, 50, 40, 1⟩

/-! ## Generic lemmas about the detector scan -/

/-- `Rat.floor` is the mathematical floor. -/
theorem ratFloor_eq_intFloor (q : ℚ) : jsFloor q = ⌊q⌋ := rfl

/-- `Rat.ceil` is the mathematical ceiling. -/
theorem ratCeil_eq_intCeil (q : ℚ) : Rat.ceil q = ⌈q⌉ := by
  rcases eq_or_ne q.den 1 with h1 | h1
  · have hq : ((q.num : ℚ)) = q := (Rat.den_eq_one_iff q).mp h1
    rw [show Rat.ceil q = q.num by simp [Rat.ceil, h1]]
    symm
    conv_lhs => rw [← hq]
    exact Int.ceil_intCast _
  · have hne : ((⌊q⌋ : ℚ)) ≠ q := by
      intro h
      exact h1 (by rw [← h]; exact Rat.den_intCast _)
    have h2 : Rat.ceil q = q.num / q.den + 1 := by simp [Rat.ceil, h1]
    have h3 : (q.num / (q.den : ℤ)) = ⌊q⌋ := by rw [← Rat.floor_def]
    rw [h2, h3]
    symm
    rw [Int.ceil_eq_iff]
    refine ⟨?_, ?_⟩
    · push_cast
      linarith [lt_of_le_of_ne (Int.floor_le q) hne]
    · push_cast
      linarith [Int.lt_floor_add_one q]

/-- `rowsBelow` counts the naturals strictly below the bound. -/
theorem rowsBelow_eq_toNat_ceil (q : ℚ) : rowsBelow q = (⌈q⌉).toNat := by
  rw [rowsBelow, ratCeil_eq_intCeil]

/-- Every row strictly before the scanned run matches. -/
theorem stickyRunFrom_matches (d1 d2 : ℕ → ℕ) (width : ℕ) :
    ∀ (rem row r : ℕ), r < stickyRunFrom d1 d2 width row rem →
      rowMatches d1 d2 width (row + r) = true := by
  intro rem
  induction rem with
  | zero => intro row r h; simp [stickyRunFrom] at h
  | succ n ih =>
    intro row r h
    rw [stickyRunFrom] at h
    by_cases hm : rowMatches d1 d2 width row = true
    · rw [if_pos hm] at h
      cases r with
      | zero => simpa using hm
      | succ k =>
        have := ih (row + 1) k (by omega)
        simpa [Nat.add_assoc, Nat.add_comm 1 k] using this
    · rw [if_neg hm] at h
      omega

/-- When the scanned run stops before the window ends, the next row fails. -/
theorem stickyRunFrom_stop (d1 d2 : ℕ → ℕ) (width : ℕ) :
    ∀ (rem row : ℕ), stickyRunFrom d1 d2 width row rem < rem →
      rowMatches d1 d2 width (row + stickyRunFrom d1 d2 width row rem) = false := by
  intro rem
  induction rem with
  | zero => intro row h; omega
  | succ n ih =>
    intro row h
    rw [stickyRunFrom] at h ⊢
    by_cases hm : rowMatches d1 d2 width row = true
    · rw [if_pos hm] at h ⊢
      have := ih (row + 1) (by omega)
      simpa [Nat.add_assoc, Nat.add_comm 1] using this
    · rw [if_neg hm] at h ⊢
      simpa using hm
  
/-- The scanned run never exceeds the window. -/
theorem stickyRunFrom_le (d1 d2 : ℕ → ℕ) (width : ℕ) :
    ∀ (rem row : ℕ), stickyRunFrom d1 d2 width row rem ≤ rem := by
  intro rem
  induction rem with
  | zero => intro row; simp [stickyRunFrom]
  | succ n ih =>
    intro row
    rw [stickyRunFrom]
    by_cases hm : rowMatches d1 d2 width row = true
    · rw [if_pos hm]
      have := ih (row + 1)
      omega
    · rw [if_neg hm]
      omega

/-! ## C6 — Dimension Sanitizer -/

unseal Rat.add Rat.sub Rat.mul Rat.inv in
/-- C6: `sanitizeCanvasDimension` raises no error (it is a total function)
and returns: the default for `undefined`, `null`, NaN, non-finite and ≤ 0
inputs; the floor for fractional values in range; and 32767 for values above
the platform ceiling.  In particular, with default 800, the inputs
undefined, null, NaN, -5, 0, 1.7, 50000 yield 800, 800, 800, 800, 800, 1,
32767 respectively. -/
theorem C6_sanitizeCanvasDimension :
    (sanitizeCanvasDimension .undef 800 = 800 ∧
     sanitizeCanvasDimension .null 800 = 800 ∧
     sanitizeCanvasDimension (.num .nan) 800 = 800 ∧
     sanitizeCanvasDimension (.num (.fin (-5))) 800 = 800 ∧
     sanitizeCanvasDimension (.num (.fin 0)) 800 = 800 ∧
     sanitizeCanvasDimension (.num (.fin (17/10))) 800 = 1 ∧
     sanitizeCanvasDimension (.num (.fin 50000)) 800 = 32767) ∧
    (∀ d : ℤ,
      sanitizeCanvasDimension .undef d = d ∧
      sanitizeCanvasDimension .null d = d ∧
      sanitizeCanvasDimension (.num .nan) d = d ∧
      sanitizeCanvasDimension (.num .posInf) d = d ∧
      sanitizeCanvasDimension (.num .negInf) d = d) ∧
    (∀ (q : ℚ) (d : ℤ), q ≤ 0 → d ≤ 32767 →
      sanitizeCanvasDimension (.num (.fin q)) d = d) ∧
    (∀ (q : ℚ) (d : ℤ), 1 ≤ ⌊q⌋ → ⌊q⌋ ≤ 32767 →
      sanitizeCanvasDimension (.num (.fin q)) d = ⌊q⌋) ∧
    (∀ (q : ℚ) (d : ℤ), 32767 < ⌊q⌋ →
      sanitizeCanvasDimension (.num (.fin q)) d = 32767) := by
  refine ⟨by decide, fun d => ⟨rfl, rfl, rfl, rfl, rfl⟩, ?_, ?_, ?_⟩
  · intro q d hq hd
    show sanitizeQ q d = d
    have h1 : jsFloor q < 1 := by
      rw [ratFloor_eq_intFloor]
      have : ⌊q⌋ ≤ 0 := le_trans (Int.floor_le_floor hq) (by simp)
      omega
    simp only [sanitizeQ]
    rw [if_pos h1, if_neg (by omega)]
  · intro q d h1 h2
    show sanitizeQ q d = ⌊q⌋
    have e : jsFloor q = ⌊q⌋ := ratFloor_eq_intFloor q
    simp only [sanitizeQ, e]
    rw [if_neg (show ¬(⌊q⌋ < 1) by omega)]
    rw [if_neg (show ¬(⌊q⌋ > 32767) by omega)]
  · intro q d h1
    show sanitizeQ q d = 32767
    have e : jsFloor q = ⌊q⌋ := ratFloor_eq_intFloor q
    simp only [sanitizeQ, e]
    rw [if_neg (show ¬(⌊q⌋ < 1) by omega)]
    rw [if_pos (show ⌊q⌋ > 32767 by omega)]

unseal Rat.add Rat.sub Rat.mul Rat.inv in
/-- Witness for C6: the floor clause applied at 5/2 with default 123. -/
theorem C6_witness :
    (1 : ℤ) ≤ ⌊(5/2 : ℚ)⌋ ∧ ⌊(5/2 : ℚ)⌋ ≤ 32767 ∧
      sanitizeCanvasDimension (.num (.fin (5/2))) 123 = ⌊(5/2 : ℚ)⌋ :=
  have h1 : (1 : ℤ) ≤ ⌊(5/2 : ℚ)⌋ := by rw [← ratFloor_eq_intFloor]; decide
  have h2 : ⌊(5/2 : ℚ)⌋ ≤ 32767 := by rw [← ratFloor_eq_intFloor]; decide
  ⟨h1, h2, C6_sanitizeCanvasDimension.2.2.2.1 (5/2) 123 h1 h2⟩

/-! ## C2 — Similarity Comparator -/

set_option maxRecDepth 40000 in
unseal Rat.add Rat.sub Rat.mul Rat.inv in
/-- C2 counterexample: two one-pixel-wide regions identical for exactly the
first 85 rows of a 100-row window.  The claim accepts any leading run that
is at least 20 and strictly below the full compared height, so it demands
85 here; the source additionally requires the run to stay below
`maxHeight - 20` and returns 0. -/
theorem C2_counterexample :
    claimedDetect dZero dSplit85 1 100 = 85 ∧
    detectStickyCore dZero dSplit85 1 100 = 0 ∧
    (85 : ℕ) ≠ 0 := by
  refine ⟨by decide, by decide, by decide⟩

set_option maxRecDepth 40000 in
unseal Rat.add Rat.sub Rat.mul Rat.inv in
/-- C2 as amended: the pixel difference threshold (30, R/G/B only) and the
5% row rule are as claimed except that the source counts a row as matching
when AT MOST 5% of its pixels differ; the scan returns the leading run of
matching rows; and the run is returned only when it is at least 20 and
strictly below the compared height MINUS 20 (not the full compared height),
else 0.  On regions identical for exactly the first 25 rows of a 100-row
window the result is 25, and on fully identical regions in a 40-row window
it is 0. -/
theorem C2_amended :
    (∀ (d1 d2 : ℕ → ℕ) (width rows : ℕ),
      stickyRun d1 d2 width rows ≤ rows ∧
      (∀ r, r < stickyRun d1 d2 width rows → rowMatches d1 d2 width r = true) ∧
      (stickyRun d1 d2 width rows < rows →
        rowMatches d1 d2 width (stickyRun d1 d2 width rows) = false)) ∧
    (∀ (d1 d2 : ℕ → ℕ) (width row : ℕ),
      (rowMatches d1 d2 width row = true ↔ 20 * rowDiffCount d1 d2 width row ≤ width)) ∧
    (∀ (d1 d2 : ℕ → ℕ) (width row : ℕ),
      rowDiffCount d1 d2 width row =
        ((List.range width).filter fun p =>
          30 < pixelDiff d1 d2 (row * (width * 4) + p * 4)).length) ∧
    (∀ (d1 d2 : ℕ → ℕ) (width : ℕ) (maxHeight : ℚ) (s : ℕ),
      s = stickyRun d1 d2 width (rowsBelow maxHeight) →
      detectStickyCore d1 d2 width maxHeight =
        if 20 ≤ s ∧ (s : ℚ) < maxHeight - 20 then s else 0) ∧
    detectStickyCore dZero dSplit 1 100 = 25 ∧
    detectStickyCore dZero dZero 1 40 = 0 := by
  refine ⟨?_, ?_, ?_, ?_, by decide, by decide⟩
  · intro d1 d2 width rows
    refine ⟨stickyRunFrom_le d1 d2 width rows 0, ?_, ?_⟩
    · intro r h
      have := stickyRunFrom_matches d1 d2 width rows 0 r h
      simpa using this
    · intro h
      have := stickyRunFrom_stop d1 d2 width rows 0 h
      simpa using this
  · intro d1 d2 width row
    simp [rowMatches]
  · intro d1 d2 width row
    rw [rowDiffCount, List.countP_eq_length_filter]
  · intro d1 d2 width maxHeight s h
    subst h
    rfl

set_option maxRecDepth 40000 in
/-- Witness for C2 as amended: row 3 of the 25-of-100 fixture matches, by
the leading-run clause. -/
theorem C2_amended_witness : rowMatches dZero dSplit 1 3 = true :=
  (C2_amended.1 dZero dSplit 1 100).2.1 3 (by decide)

/-! ## C1 — whole-page output height -/

/-- Folding additions equals adding the sum of the mapped list. -/
theorem foldl_add_map_sum (f : Image → ℚ) :
    ∀ (l : List Image) (init : ℚ),
      l.foldl (fun acc im => acc + f im) init = init + (l.map f).sum := by
  intro l
  induction l with
  | nil => intro init; simp
  | cons a t ih =>
    intro init
    simp [ih, add_assoc]

set_option maxRecDepth 40000 in
unseal Rat.add Rat.sub Rat.mul Rat.inv in
/-- C1 counterexample: with capture heights 100 and 50, overlap 75, no sticky
header, `stitchFullPage` returns a 75-pixel-tall surface although the first
capture is 100 pixels tall — the total is not clamped to the first capture's
height. -/
theorem C1_counterexample :
    stitchFullPage false [capA, capB] 75 =
      .ok { width := 2, height := 75,
            ops := [⟨0, 0, 2, 100, 0⟩, ⟨0, 75, 2, -25, 100⟩],
            finalCursor := 75, trimmed := false } ∧
    imgA.height = 100 ∧ (75 : ℤ) < 100 := by
  refine ⟨by decide, by decide, by decide⟩

set_option maxRecDepth 100000 in
unseal Rat.add Rat.sub Rat.mul Rat.inv in
/-- C1 as amended: the whole-page output height is the sanitized raw sum
`h₀ + Σ (hᵢ - overlap - sticky)`, not clamped to the first capture's height;
the 1000×800 three-capture scenario yields 1000×2250. -/
theorem C1_amended :
    (∀ (hf : Bool) (caps : List Capture) (ov : ℚ) (i0 : Image) (rest : List Image),
      decodeAll caps = .ok (i0 :: rest) →
      stitchFullPage hf caps ov = .ok (stitchLoadedViewports hf i0 rest ov) ∧
      (stitchLoadedViewports hf i0 rest ov).height =
        sanitizeQ ((i0.height : ℚ) +
          ((rest.map fun im =>
            (im.height : ℚ) - ov - (wholePageSticky hf (i0 :: rest) : ℕ)).sum)) 600) ∧
    (stitchFullPage false [capK0, capK1, capK0] 75).map (fun o => (o.width, o.height)) =
      .ok (1000, 2250) := by
  constructor
  · intro hf caps ov i0 rest h
    have hne : caps ≠ [] := by
      intro e
      subst e
      simp [decodeAll] at h
    obtain ⟨c, cs, rfl⟩ := List.exists_cons_of_ne_nil hne
    constructor
    · simp only [stitchFullPage, stitchCapturedViewports, List.isEmpty_cons, h]
      rfl
    · simp only [stitchLoadedViewports, stitchLoadedViewportsCore]
      rw [foldl_add_map_sum]
  · decide

set_option maxRecDepth 40000 in
unseal Rat.add Rat.sub Rat.mul Rat.inv in
/-- Witness for C1 as amended: the height equation instantiated at the
heights-100-and-50 fixture with overlap 75. -/
theorem C1_amended_witness :
    stitchFullPage false [capA, capB] 75 = .ok (stitchLoadedViewports false imgA [imgB] 75) ∧
    (stitchLoadedViewports false imgA [imgB] 75).height =
      sanitizeQ ((imgA.height : ℚ) +
        (([imgB].map fun im =>
          (im.height : ℚ) - 75 - (wholePageSticky false [imgA, imgB] : ℕ)).sum)) 600 :=
  C1_amended.1 false [capA, capB] 75 imgA [imgB] rfl

/-! ## C3 — page-scroll element watermark -/

/-- In page-scroll mode the sticky probe is skipped and yields 0
(offscreen.js line 729 requires `hasInternalScroll`). -/
theorem elementSticky_page (hf : Bool) (b : ElementBounds) (es : List EImg)
    (h : b.hasInternalScroll = false) : elementSticky hf b es = 0 := by
  match es with
  | [] => rfl
  | [e0] => rfl
  | e0 :: e1 :: tl => simp [elementSticky, h]

/-- C3: in element page-scroll mode the rows-already-drawn watermark is
non-decreasing across captures; each capture's visible interval is
`elementRowStart = max(0, -offsetY)` and
`elementRowEnd = min(elementRowStart + (imageHeight - max(0, offsetY)),
scaled total height)`; each capture skips
`overlapRows = max(0, watermark - elementRowStart)` rows from the top of its
visible element content (`srcY = max(0, offsetY) + overlapRows`); and the
watermark advances to `max(watermark, elementRowEnd)`.  In page-scroll mode
the sticky-header height is 0, so the body runs with sticky 0; the scenario
with offsetY 0, -120, -240 and image height 400 yields the watermark trace
400, 520, 640. -/
theorem C3_pageScroll_watermark :
    (∀ (scaledW scaledTotal scaledOv : ℤ) (es : List EImg) (first : Bool) (wm dY : ℤ),
      List.Chain' (· ≤ ·)
        (wm :: (elemSteps false scaledW scaledTotal scaledOv 0 first wm dY es).map
          fun r => r.watermarkAfter) ∧
      (∀ r ∈ elemSteps false scaledW scaledTotal scaledOv 0 first wm dY es,
        r.elementRowStart = max 0 (-r.offsetY) ∧
        r.elementRowEnd = min (r.elementRowStart + (r.imgH - max 0 r.offsetY)) scaledTotal ∧
        r.overlapRows = max 0 (r.watermarkBefore - r.elementRowStart) ∧
        r.srcY = max 0 r.offsetY + r.overlapRows ∧
        r.watermarkAfter = max r.watermarkBefore r.elementRowEnd)) ∧
    (∀ (hf : Bool) (b : ElementBounds) (es : List EImg) (ov : ℚ),
      b.hasInternalScroll = false →
      stitchElementLoaded hf b es ov = stitchElementCore 0 b es ov) ∧
    (elemSteps false 100 900 75 0 true 0 0 [eP0, eP1, eP2]).map
      (fun r => r.watermarkAfter) = [400, 520, 640] := by
  refine ⟨?_, ?_, by decide⟩
  · intro scaledW scaledTotal scaledOv es
    induction es with
    | nil =>
      intro first wm dY
      exact ⟨List.chain'_singleton wm, by simp [elemSteps]⟩
    | cons e rest ih =>
      intro first wm dY
      rw [elemSteps]
      constructor
      · rw [List.map_cons, List.chain'_cons]
        refine ⟨?_, (ih false _ _).1⟩
        simp [elemStep]
      · intro r hr
        rcases List.mem_cons.mp hr with h | h
        · subst h
          refine ⟨?_, ?_, ?_, ?_, ?_⟩ <;> simp [elemStep]
        · exact (ih false _ _).2 r h
  · intro hf b es ov h
    rw [stitchElementLoaded, elementSticky_page hf b es h]

/-- Witness for C3: the interval formula at a concrete capture, and the
sticky-free body in page-scroll mode on the scenario list. -/
theorem C3_witness :
    ((elemStep false 100 900 75 0 true 0 0 eP1).elementRowStart =
        max 0 (-(elemStep false 100 900 75 0 true 0 0 eP1).offsetY)) ∧
    stitchElementLoaded false elPage [eP0, eP1, eP2] 75 =
      stitchElementCore 0 elPage [eP0, eP1, eP2] 75 := by
  constructor
  · exact ((C3_pageScroll_watermark.1 100 900 75 [eP1] true 0 0).2
      (elemStep false 100 900 75 0 true 0 0 eP1) (by decide)).1
  · exact C3_pageScroll_watermark.2.1 false elPage [eP0, eP1, eP2] 75 rfl

/-! ## C4 — device-pixel-ratio scaling -/

/-- Every op the cropped draw loop emits reads at the fixed horizontal
offset. -/
theorem croppedOps_op_srcX (sX mW yF hF yR hR : ℤ) :
    ∀ (imgs : List Image) (first : Bool) (cursor : ℤ) (op : DrawOp),
      op ∈ (croppedOps sX mW yF hF yR hR first cursor imgs).1 → op.srcX = (sX : ℚ) := by
  intro imgs
  induction imgs with
  | nil =>
    intro first cursor op h
    simp [croppedOps] at h
  | cons im rest ih =>
    intro first cursor op h
    rw [croppedOps] at h
    split at h <;> split at h <;>
      first
        | exact ih false cursor op h
        | (rcases List.mem_cons.mp (by simpa using h) with h1 | h1
           · subst h1; rfl
           · exact ih false _ op h1)

/-- Every op the whole-page draw loop emits for a non-first capture reads
from `overlap + sticky` — the unscaled overlap. -/
theorem wholePageOps_rest_srcY (ov sticky canvasWidth : ℚ) :
    ∀ (imgs : List Image) (cursor : ℚ) (op : DrawOp),
      op ∈ wholePageOps ov sticky canvasWidth false cursor imgs → op.srcY = ov + sticky := by
  intro imgs
  induction imgs with
  | nil =>
    intro cursor op h
    simp [wholePageOps] at h
  | cons im rest ih =>
    intro cursor op h
    rw [wholePageOps] at h
    rcases List.mem_cons.mp h with h1 | h1
    · subst h1; rfl
    · exact ih _ op h1

set_option maxRecDepth 40000 in
unseal Rat.add Rat.sub Rat.mul Rat.inv in
/-- C4 counterexample: with devicePixelRatio 2, the whole-page path still
skips only 75 source pixels per non-first capture — the `overlapHeight`
argument is used as a device-pixel coordinate without being multiplied by
the supplied device pixel ratio (which would give 150). -/
theorem C4_counterexample :
    stitchCapturedViewports false [capA, capB] 75 false none 2 =
      .ok { width := 2, height := 75,
            ops := [⟨0, 0, 2, 100, 0⟩, ⟨0, 75, 2, -25, 100⟩],
            finalCursor := 75, trimmed := false } ∧
    (75 : ℚ) ≠ ((jsRound ((75 : ℚ) * 2) : ℤ) : ℚ) := by
  refine ⟨by decide, by decide⟩

/-- C4 as amended: the element path scales its bounds, per-capture rects and
overlap by the device pixel ratio (`elemMeta`, output width), and the
custom-container and named-region paths scale their crop rectangles and
overlap likewise (output width, horizontal read offset of every draw);
the whole-page path, by contrast, uses `overlapHeight` unscaled as its
source-Y skip for every non-first capture. -/
theorem C4_amended :
    (∀ (b : ElementBounds) (c : Capture) (img : Image),
      (elemMeta b c img).offsetX = jsRound ((c.rectX.getD b.offsetX) * b.dpr) ∧
      (elemMeta b c img).offsetY = jsRound ((c.rectY.getD b.offsetY) * b.dpr) ∧
      (elemMeta b c img).captureHeight = jsRound ((match c.rectHeight with
        | some q => if q = 0 then b.height else q
        | none => b.height) * b.dpr)) ∧
    (∀ (sticky : ℕ) (b : ElementBounds) (es : List EImg) (ov : ℚ),
      (stitchElementCore sticky b es ov).width =
        sanitizeQ ((jsRound (b.width * b.dpr) : ℤ) : ℚ) 800) ∧
    (∀ (sticky : ℕ) (imgs : List Image) (ov : ℚ) (b : RectBounds) (dpr : ℚ),
      (stitchCustomContainerCore sticky imgs ov b dpr).width =
        sanitizeQ ((jsRound (b.width * dpr) : ℤ) : ℚ) 800 ∧
      ∀ op ∈ (stitchCustomContainerCore sticky imgs ov b dpr).ops,
        op.srcX = ((jsRound (b.left * dpr) : ℤ) : ℚ)) ∧
    (∀ (b : JiraBounds) (imgs : List Image) (ov : ℚ),
      (stitchJiraLoaded b imgs ov).width =
        sanitizeQ ((jsRound (b.width * b.dpr) : ℤ) : ℚ) 800 ∧
      ∀ op ∈ (stitchJiraLoaded b imgs ov).ops,
        op.srcX = ((jsRound (b.left * b.dpr) : ℤ) : ℚ)) ∧
    (∀ (sticky : ℕ) (i0 : Image) (rest : List Image) (ov : ℚ),
      ∀ op ∈ ((stitchLoadedViewportsCore sticky i0 rest ov).ops.drop 1),
        op.srcY = ov + (sticky : ℕ)) := by
  refine ⟨fun b c img => ⟨rfl, rfl, rfl⟩, fun sticky b es ov => ?_, ?_, ?_, ?_⟩
  · simp only [stitchElementCore]
    split <;> rfl
  · intro sticky imgs ov b dpr
    constructor
    · simp only [stitchCustomContainerCore]
      split <;> rfl
    · intro op hop
      have : (stitchCustomContainerCore sticky imgs ov b dpr).ops =
          (croppedOps (jsRound (b.left * dpr)) (jsRound (b.width * dpr))
            (jsRound (b.top * dpr)) (jsRound (b.height * dpr))
            (jsRound (b.top * dpr) + jsRound (ov * dpr) + sticky)
            (jsRound (b.height * dpr) - jsRound (ov * dpr) - sticky) true 0 imgs).1 := by
        simp only [stitchCustomContainerCore]
        split <;> rfl
      rw [this] at hop
      exact croppedOps_op_srcX _ _ _ _ _ _ imgs true 0 op hop
  · intro b imgs ov
    constructor
    · simp only [stitchJiraLoaded]
      split <;> rfl
    · intro op hop
      have : (stitchJiraLoaded b imgs ov).ops =
          (croppedOps (jsRound (b.left * b.dpr)) (jsRound (b.width * b.dpr))
            (jsRound (b.top * b.dpr)) (jsRound (b.height * b.dpr))
            (jsRound (b.top * b.dpr) + jsRound (ov * b.dpr))
            (jsRound (b.height * b.dpr) - jsRound (ov * b.dpr)) true 0 imgs).1 := by
        simp only [stitchJiraLoaded]
        split <;> rfl
      rw [this] at hop
      exact croppedOps_op_srcX _ _ _ _ _ _ imgs true 0 op hop
  · intro sticky i0 rest ov op hop
    have : (stitchLoadedViewportsCore sticky i0 rest ov).ops.drop 1 =
        wholePageOps ov sticky (i0.width : ℚ) false (0 + (i0.height : ℚ)) rest := by
      rfl
    rw [this] at hop
    exact wholePageOps_rest_srcY ov sticky (i0.width : ℚ) rest _ op hop

set_option maxRecDepth 40000 in
unseal Rat.add Rat.sub Rat.mul Rat.inv in
/-- Witness for C4 as amended: the named-region horizontal-offset clause at
a concrete capture. -/
theorem C4_amended_witness :
    (⟨0, 0, 50, 40, 0⟩ : DrawOp) ∈ (stitchJiraLoaded jbTrim [imgSmall] 0).ops ∧
    (⟨0, 0, 50, 40, 0⟩ : DrawOp).srcX = ((jsRound (jbTrim.left * jbTrim.dpr) : ℤ) : ℚ) :=
  have hm : (⟨0, 0, 50, 40, 0⟩ : DrawOp) ∈ (stitchJiraLoaded jbTrim [imgSmall] 0).ops := by
    decide
  ⟨hm, (C4_amended.2.2.2.1 jbTrim [imgSmall] 0).2 _ hm⟩

/-! ## C5 — clamping and skipping -/

/-- The whole-page draw loop issues exactly one draw per capture: nothing is
ever skipped there. -/
theorem wholePageOps_length (ov sticky canvasWidth : ℚ) :
    ∀ (imgs : List Image) (first : Bool) (cursor : ℚ),
      (wholePageOps ov sticky canvasWidth first cursor imgs).length = imgs.length := by
  intro imgs
  induction imgs with
  | nil => intro first cursor; rfl
  | cons im rest ih =>
    intro first cursor
    rw [wholePageOps]
    simp [ih]

set_option maxRecDepth 40000 in
unseal Rat.add Rat.sub Rat.mul Rat.inv in
/-- C5 counterexample: in whole-page mode, the second capture's resolved
draw height is -25 ≤ 0, yet a draw op with that height is still issued and
the destination cursor advances from 100 to 75 — the capture is neither
clamped nor skipped, and the cursor does not stay put. -/
theorem C5_counterexample :
    stitchFullPage false [capA, capB] 75 =
      .ok { width := 2, height := 75,
            ops := [⟨0, 0, 2, 100, 0⟩, ⟨0, 75, 2, -25, 100⟩],
            finalCursor := 75, trimmed := false } ∧
    (-25 : ℚ) ≤ 0 ∧ ((100 : ℚ) + -25) ≠ 100 := by
  refine ⟨by decide, by decide, by decide⟩

/-- C5 as amended: the custom-container, element (both scroll modes) and
named-region paths clamp the source rectangle on the right and bottom to the
decoded image's bounds and skip — issuing no draw and leaving the destination
cursor unchanged — any capture whose clamped width or height is ≤ 0; the
whole-page path has no clamp and no skip, issuing one draw per capture and
always advancing the cursor by the possibly negative draw height. -/
theorem C5_amended :
    (∀ (sX mW yF hF yR hR : ℤ) (first : Bool) (cursor : ℤ) (im : Image) (rest : List Image),
      (min mW ((im.width : ℤ) - sX) ≤ 0 ∨
        min (if first then hF else hR) ((im.height : ℤ) - (if first then yF else yR)) ≤ 0 →
        croppedOps sX mW yF hF yR hR first cursor (im :: rest) =
          croppedOps sX mW yF hF yR hR false cursor rest) ∧
      min (if first then hF else hR) ((im.height : ℤ) - (if first then yF else yR)) ≤
        (im.height : ℤ) - (if first then yF else yR) ∧
      min mW ((im.width : ℤ) - sX) ≤ (im.width : ℤ) - sX) ∧
    (∀ (internal : Bool) (scaledW scaledTotal scaledOv : ℤ) (sticky : ℕ) (first : Bool)
        (wm dY : ℤ) (e : EImg) (r : ElemStep),
      r = elemStep internal scaledW scaledTotal scaledOv sticky first wm dY e →
      r.srcHeight ≤ r.imgH - r.srcY ∧
      r.srcWidth ≤ r.imgW - r.srcX ∧
      (r.skipped = true ↔ (r.srcHeight ≤ 0 ∨ r.srcWidth ≤ 0)) ∧
      (r.skipped = true → r.destYAfter = r.destYBefore) ∧
      (r.skipped = false → r.destYAfter = r.destYBefore + r.srcHeight)) ∧
    (∀ (sticky : ℕ) (b : ElementBounds) (es : List EImg) (ov : ℚ),
      (stitchElementCore sticky b es ov).ops =
        ((elemSteps b.hasInternalScroll (jsRound (b.width * b.dpr)) (jsRound (b.height * b.dpr))
            (jsRound (ov * b.dpr)) sticky true 0 0 es).filter fun r => !r.skipped).map
          fun r => ⟨(r.srcX : ℚ), (r.srcY : ℚ), (r.srcWidth : ℚ), (r.srcHeight : ℚ),
            (r.destYBefore : ℚ)⟩) ∧
    (∀ (ov sticky canvasWidth : ℚ) (imgs : List Image) (first : Bool) (cursor : ℚ),
      (wholePageOps ov sticky canvasWidth first cursor imgs).length = imgs.length) := by
  refine ⟨?_, ?_, ?_, wholePageOps_length⟩
  · intro sX mW yF hF yR hR first cursor im rest
    refine ⟨?_, min_le_right _ _, min_le_right _ _⟩
    intro h
    simp only [croppedOps]
    rw [if_pos h]
  · intro internal scaledW scaledTotal scaledOv sticky first wm dY e r hr
    subst hr
    cases internal <;>
      · refine ⟨?_, ?_, ?_, ?_, ?_⟩
        · simp only [elemStep]
          split <;> exact min_le_right _ _
        · simp only [elemStep]
          split <;> exact min_le_right _ _
        · simp [elemStep]
        · intro h
          simp only [elemStep] at h ⊢
          simp_all
        · intro h
          simp only [elemStep] at h ⊢
          simp_all
  · intro sticky b es ov
    simp only [stitchElementCore]
    split <;> rfl

/-- Witness for C5 as amended: the skip equation at a capture whose clamped
source width is negative. -/
theorem C5_amended_witness :
    croppedOps 500 50 0 40 0 40 true 0 [imgSmall] =
      croppedOps 500 50 0 40 0 40 false 0 [] :=
  (C5_amended.1 500 50 0 40 0 40 true 0 imgSmall []).1 (by decide)

/-! ## C7 — empty input -/

/-- C7: all four stitching entry points reject an empty capture sequence
with the empty-input error.  The guard sits before the image-loading loop,
so nothing is decoded and no output surface is allocated; the returned value
is `Except.error`, carrying no partial output. -/
theorem C7_emptyInput :
    (∀ (hf : Bool) (ov : ℚ) (ucc : Bool) (cb : Option RectBounds) (dpr : ℚ),
      stitchCapturedViewports hf [] ov ucc cb dpr = .error .emptyInput) ∧
    (∀ (hf : Bool) (ov : ℚ), stitchFullPage hf [] ov = .error .emptyInput) ∧
    (∀ (hf : Bool) (b : ElementBounds) (ov : ℚ),
      stitchElementCaptures hf [] b ov = .error .emptyInput) ∧
    (∀ (b : JiraBounds) (ov : ℚ), stitchJiraCenterCaptures [] b ov = .error .emptyInput) :=
  ⟨fun _ _ _ _ _ => rfl, fun _ _ => rfl, fun _ _ _ => rfl, fun _ _ => rfl⟩

/-! ## C8 — header detection degrades, never fails -/

/-- With the host flag set, the whole-page sticky probe yields 0. -/
theorem wholePageSticky_hostFail (imgs : List Image) : wholePageSticky true imgs = 0 := by
  match imgs with
  | [] => rfl
  | [i0] => rfl
  | i0 :: i1 :: tl => simp [wholePageSticky, detectStickyHeaderHeight]

/-- With the host flag set, the custom-container sticky probe yields 0. -/
theorem customContainerSticky_hostFail (b : RectBounds) (dpr : ℚ) (imgs : List Image) :
    customContainerSticky true b dpr imgs = 0 := by
  match imgs with
  | [] => rfl
  | [i0] => rfl
  | i0 :: i1 :: tl => simp [customContainerSticky, detectStickyHeaderHeight]

/-- With the host flag set, the element sticky probe yields 0. -/
theorem elementSticky_hostFail (b : ElementBounds) (es : List EImg) :
    elementSticky true b es = 0 := by
  match es with
  | [] => rfl
  | [e0] => rfl
  | e0 :: e1 :: tl => simp [elementSticky, detectStickyHeaderHeight]

/-- Decoding a list of loadable captures succeeds. -/
theorem decodeAll_ex : ∀ (caps : List Capture),
    (∀ c ∈ caps, c.decoded.isSome = true) → ∃ imgs, decodeAll caps = .ok imgs := by
  intro caps
  induction caps with
  | nil => exact fun _ => ⟨[], rfl⟩
  | cons c cs ih =>
    intro h
    obtain ⟨img, himg⟩ := Option.isSome_iff_exists.mp (h c (List.mem_cons_self c cs))
    obtain ⟨tl, htl⟩ := ih fun x hx => h x (List.mem_cons_of_mem c hx)
    exact ⟨img :: tl, by rw [decodeAll, himg, htl]; rfl⟩

/-- Decoding preserves the number of captures. -/
theorem decodeAll_length : ∀ (caps : List Capture) (imgs : List Image),
    decodeAll caps = .ok imgs → imgs.length = caps.length := by
  intro caps
  induction caps with
  | nil =>
    intro imgs h
    simp only [decodeAll] at h
    cases h
    rfl
  | cons c cs ih =>
    intro imgs h
    rw [decodeAll] at h
    cases hd : c.decoded with
    | none => rw [hd] at h; cases h
    | some img =>
      rw [hd] at h
      cases he : decodeAll cs with
      | error e => rw [he] at h; cases h
      | ok tl =>
        rw [he] at h
        cases h
        simp [ih tl he]

/-- C8: a failing crop or pixel extraction inside sticky-header detection
yields 0 instead of raising; each enclosing stitch body then runs exactly as
with no detected header (sticky = 0), and a stitch with loadable captures
still returns a result — header detection can never fail it. -/
theorem C8_detectDegrades :
    (∀ (i1 i2 : Image) (ox : ℤ) (mh : ℚ) (w : ℤ),
      detectStickyHeaderHeight true i1 i2 ox mh w = 0) ∧
    (∀ (i0 : Image) (rest : List Image) (ov : ℚ),
      stitchLoadedViewports true i0 rest ov = stitchLoadedViewportsCore 0 i0 rest ov) ∧
    (∀ (imgs : List Image) (ov : ℚ) (b : RectBounds) (dpr : ℚ),
      stitchCustomContainerCaptures true imgs ov b dpr =
        stitchCustomContainerCore 0 imgs ov b dpr) ∧
    (∀ (b : ElementBounds) (es : List EImg) (ov : ℚ),
      stitchElementLoaded true b es ov = stitchElementCore 0 b es ov) ∧
    (∀ (hf : Bool) (caps : List Capture) (ov : ℚ),
      caps ≠ [] → (∀ c ∈ caps, c.decoded.isSome = true) →
      ∃ out, stitchFullPage hf caps ov = .ok out) := by
  refine ⟨?_, ?_, ?_, ?_, ?_⟩
  · intro i1 i2 ox mh w
    simp [detectStickyHeaderHeight]
  · intro i0 rest ov
    rw [stitchLoadedViewports, wholePageSticky_hostFail]
  · intro imgs ov b dpr
    rw [stitchCustomContainerCaptures, customContainerSticky_hostFail]
  · intro b es ov
    rw [stitchElementLoaded, elementSticky_hostFail]
  · intro hf caps ov hne hdec
    obtain ⟨imgs, him⟩ := decodeAll_ex caps hdec
    obtain ⟨c, cs, rfl⟩ := List.exists_cons_of_ne_nil hne
    have hlen := decodeAll_length (c :: cs) imgs him
    cases imgs with
    | nil => simp at hlen
    | cons i0 rest =>
      refine ⟨stitchLoadedViewports hf i0 rest ov, ?_⟩
      simp only [stitchFullPage, stitchCapturedViewports, List.isEmpty_cons, him]
      rfl

/-- Witness for C8: a whole-page stitch with a failing detection host still
returns a result. -/
theorem C8_witness : ∃ out, stitchFullPage true [capA, capB] 75 = .ok out :=
  C8_detectDegrades.2.2.2.2 true [capA, capB] 75 (List.cons_ne_nil _ _)
    (by
      intro c hc
      rcases List.mem_cons.mp hc with h | h
      · subst h; rfl
      · rw [List.mem_singleton] at h; subst h; rfl)

/-! ## C9 — determinism -/

/-- C9: stitching is deterministic — every entry point is a pure function of
its arguments (the source reads no mutable state across calls), so two runs
on equal inputs produce equal outputs, and hence equal PNG bytes under any
fixed encoder. -/
theorem C9_deterministic :
    (∀ (hf₁ hf₂ : Bool) (c₁ c₂ : List Capture) (ov₁ ov₂ : ℚ) (u₁ u₂ : Bool)
        (cb₁ cb₂ : Option RectBounds) (d₁ d₂ : ℚ),
      hf₁ = hf₂ → c₁ = c₂ → ov₁ = ov₂ → u₁ = u₂ → cb₁ = cb₂ → d₁ = d₂ →
      stitchCapturedViewports hf₁ c₁ ov₁ u₁ cb₁ d₁ =
        stitchCapturedViewports hf₂ c₂ ov₂ u₂ cb₂ d₂) ∧
    (∀ (hf₁ hf₂ : Bool) (c₁ c₂ : List Capture) (b₁ b₂ : ElementBounds) (ov₁ ov₂ : ℚ),
      hf₁ = hf₂ → c₁ = c₂ → b₁ = b₂ → ov₁ = ov₂ →
      stitchElementCaptures hf₁ c₁ b₁ ov₁ = stitchElementCaptures hf₂ c₂ b₂ ov₂) ∧
    (∀ (c₁ c₂ : List Capture) (b₁ b₂ : JiraBounds) (ov₁ ov₂ : ℚ),
      c₁ = c₂ → b₁ = b₂ → ov₁ = ov₂ →
      stitchJiraCenterCaptures c₁ b₁ ov₁ = stitchJiraCenterCaptures c₂ b₂ ov₂) := by
  refine ⟨?_, ?_, ?_⟩
  · intro hf₁ hf₂ c₁ c₂ ov₁ ov₂ u₁ u₂ cb₁ cb₂ d₁ d₂ h1 h2 h3 h4 h5 h6
    subst h1; subst h2; subst h3; subst h4; subst h5; subst h6; rfl
  · intro hf₁ hf₂ c₁ c₂ b₁ b₂ ov₁ ov₂ h1 h2 h3 h4
    subst h1; subst h2; subst h3; subst h4; rfl
  · intro c₁ c₂ b₁ b₂ ov₁ ov₂ h1 h2 h3
    subst h1; subst h2; subst h3; rfl

/-- Witness for C9: two identical whole-page invocations agree. -/
theorem C9_witness :
    stitchCapturedViewports false [capA, capB] 75 false none 1 =
      stitchCapturedViewports false [capA, capB] 75 false none 1 :=
  C9_deterministic.1 false false [capA, capB] [capA, capB] 75 75 false false
    none none 1 1 rfl rfl rfl rfl rfl rfl

/-! ## C10 — zero-height trim in the element path -/

set_option maxRecDepth 40000 in
unseal Rat.add Rat.sub Rat.mul Rat.inv in
/-- C10: on a one-capture sequence whose clamped source width is negative
(element offsetX 500 against a 100px-wide image) nothing is drawn and the
cursor stays 0; the element path's trim branch has no drawn-height guard and
reallocates a 0-height surface (height 0, trimmed), while the
custom-container and named-region paths on the analogous input skip the trim
(cursor 0 fails their `0 < cursor` guard) and return the allocated surface;
in general those two paths trim only when the drawn height is positive. -/
theorem C10_elementTrimsToZero :
    (stitchElementCaptures false [capSmall] elBSkip 75 =
      .ok { width := 100, height := 0, ops := [], finalCursor := 0, trimmed := true }) ∧
    (stitchCapturedViewports false [capSmall] 75 true (some rbSkip) 1 =
      .ok { width := 50, height := 40, ops := [], finalCursor := 0, trimmed := false }) ∧
    (stitchJiraCenterCaptures [capSmall] jbSkip 75 =
      .ok { width := 50, height := 40, ops := [], finalCursor := 0, trimmed := false }) ∧
    (∀ (sticky : ℕ) (imgs : List Image) (ov : ℚ) (b : RectBounds) (dpr : ℚ),
      (stitchCustomContainerCore sticky imgs ov b dpr).trimmed = true →
      0 < (stitchCustomContainerCore sticky imgs ov b dpr).finalCursor) ∧
    (∀ (b : JiraBounds) (imgs : List Image) (ov : ℚ),
      (stitchJiraLoaded b imgs ov).trimmed = true →
      0 < (stitchJiraLoaded b imgs ov).finalCursor) := by
  refine ⟨by decide, by decide, by decide, ?_, ?_⟩
  · intro sticky imgs ov b dpr h
    simp only [stitchCustomContainerCore] at h ⊢
    split at h
    case isTrue hc =>
      rw [if_pos hc]
      simpa using hc.2
    case isFalse hc =>
      simp at h
  · intro b imgs ov h
    simp only [stitchJiraLoaded] at h ⊢
    split at h
    case isTrue hc =>
      rw [if_pos hc]
      simpa using hc.2
    case isFalse hc =>
      simp at h

set_option maxRecDepth 40000 in
unseal Rat.add Rat.sub Rat.mul Rat.inv in
/-- Witness for C10: a custom-container stitch that does trim has a positive
drawn height. -/
theorem C10_witness :
    (stitchCustomContainerCore 0 [imgShort] 0 rbTrim 1).trimmed = true ∧
    0 < (stitchCustomContainerCore 0 [imgShort] 0 rbTrim 1).finalCursor :=
  have ht : (stitchCustomContainerCore 0 [imgShort] 0 rbTrim 1).trimmed = true := by decide
  ⟨ht, C10_elementTrimsToZero.2.2.2.1 0 [imgShort] 0 rbTrim 1 ht⟩
